import Mathlib

/-!
# Verification of the website change tracker

A shallow embedding of `app.py` of the `website_changes_tracker` repository:
a script that watches a set of URLs in a SQLite database, periodically
re-fetches each page, detects content changes by SHA-256 hash comparison,
and archives superseded snapshots.

The embedding models:

* the SQLite store (tables `websites`, `urls`, `website_archive`) as lists of
  rows, together with a flag recording whether the `urls` table's schema has a
  `last_checked` column — `create_tables` creates `urls (url TEXT PRIMARY KEY)`
  *without* that column, while `update_urls` and `should_fetch_content` issue
  SQL that references it, so the schema of the `urls` table matters;
* Python exceptions (`sqlite3.OperationalError`, `sqlite3.IntegrityError`,
  `TypeError`, `AssertionError`) via `Except`;
* timestamps as integers (minutes), with `now` passed explicitly where the
  Python code calls `datetime.now()`;
* the network (`get_website_content`) as an oracle `fetch : String → String`
  returning the page body, or `""` on any request error — exactly the
  observable behaviour of the Python function, which catches every
  `RequestException` and returns the empty string;
* `hashlib.sha256(content.encode()).hexdigest()` as a full executable SHA-256
  over the UTF-8 encoding of the content.
-/

/-! ## SHA-256 (`hashlib.sha256(...).hexdigest()`)

A direct implementation of FIPS 180-4 SHA-256 on byte lists, with 32-bit
words represented as `Nat` reduced mod `2^32`. -/

/-- Addition mod `2^32`. -/
def add32 (a b : Nat) : Nat := (a + b) % 4294967296

/-- Rotate a 32-bit word right by `n` bits. -/
def rotr32 (n x : Nat) : Nat := ((x >>> n) ||| (x <<< (32 - n))) % 4294967296

/-- Bitwise complement of a 32-bit word. -/
def not32 (x : Nat) : Nat := x ^^^ 4294967295

/-- The upper-case sigma-0 word function of SHA-256. -/
def bigSigma0 (x : Nat) : Nat := rotr32 2 x ^^^ rotr32 13 x ^^^ rotr32 22 x

/-- The upper-case sigma-1 word function of SHA-256. -/
def bigSigma1 (x : Nat) : Nat := rotr32 6 x ^^^ rotr32 11 x ^^^ rotr32 25 x

/-- The lower-case sigma-0 word function of SHA-256. -/
def smallSigma0 (x : Nat) : Nat := rotr32 7 x ^^^ rotr32 18 x ^^^ (x >>> 3)

/-- The lower-case sigma-1 word function of SHA-256. -/
def smallSigma1 (x : Nat) : Nat := rotr32 17 x ^^^ rotr32 19 x ^^^ (x >>> 10)

/-- The choice word function of SHA-256. -/
def choose32 (e f g : Nat) : Nat := (e &&& f) ^^^ (not32 e &&& g)

/-- The majority word function of SHA-256. -/
def major32 (a b c : Nat) : Nat := (a &&& b) ^^^ (a &&& c) ^^^ (b &&& c)

/-- The 64 round constants of FIPS 180-4 §4.2.2, written in decimal. -/
def sha256K : List Nat :=
  [1116352408, 1899447441, 3049323471, 3921009573, 961987163,
   1508970993, 2453635748, 2870763221, 3624381080, 310598401,
   607225278, 1426881987, 1925078388, 2162078206, 2614888103,
   3248222580, 3835390401, 4022224774, 264347078, 604807628,
   770255983, 1249150122, 1555081692, 1996064986, 2554220882,
   2821834349, 2952996808, 3210313671, 3336571891, 3584528711,
   113926993, 338241895, 666307205, 773529912, 1294757372,
   1396182291, 1695183700, 1986661051, 2177026350, 2456956037,
   2730485921, 2820302411, 3259730800, 3345764771, 3516065817,
   3600352804, 4094571909, 275423344, 430227734, 506948616,
   659060556, 883997877, 958139571, 1322822218, 1537002063,
   1747873779, 1955562222, 2024104815, 2227730452, 2361852424,
   2428436474, 2756734187, 3204031479, 3329325298]

/-- The eight 32-bit working variables of the SHA-256 compression function
(and the final digest as eight words). -/
structure Hash8 where
  a : Nat
  b : Nat
  c : Nat
  d : Nat
  e : Nat
  f : Nat
  g : Nat
  h : Nat
deriving DecidableEq, Repr

/-- The initial hash value of FIPS 180-4 §5.3.3, written in decimal. -/
def sha256H0 : Hash8 :=
  ⟨1779033703, 3144134277, 1013904242,
   2773480762, 1359893119, 2600822924,
   528734635, 1541459225⟩

/-- One SHA-256 round: absorb one round constant and one schedule word. -/
def sha256Round (st : Hash8) (kw : Nat × Nat) : Hash8 :=
  let t1 := add32 st.h (add32 (bigSigma1 st.e) (add32 (choose32 st.e st.f st.g) (add32 kw.1 kw.2)))
  let t2 := add32 (bigSigma0 st.a) (major32 st.a st.b st.c)
  ⟨add32 t1 t2, st.a, st.b, st.c, add32 st.d t1, st.e, st.f, st.g⟩

/-- Big-endian 32-bit word from four bytes of a block, at word index `i`. -/
def wordAt (block : List Nat) (i : Nat) : Nat :=
  block.getD (4 * i) 0 * 16777216 + block.getD (4 * i + 1) 0 * 65536 +
  block.getD (4 * i + 2) 0 * 256 + block.getD (4 * i + 3) 0

/-- Extend a message-schedule prefix by one word (FIPS 180-4 §6.2.2 step 1). -/
def extendSchedule (w : List Nat) : List Nat :=
  w ++ [add32 (add32 (smallSigma1 (w.getD (w.length - 2) 0)) (w.getD (w.length - 7) 0))
              (add32 (smallSigma0 (w.getD (w.length - 15) 0)) (w.getD (w.length - 16) 0))]

/-- The 64-word message schedule of one 512-bit block. -/
def schedule (block : List Nat) : List Nat :=
  extendSchedule^[48] ((List.range 16).map (wordAt block))

/-- Compress one 512-bit (64-byte) block into the running hash value. -/
def processBlock (H : Hash8) (block : List Nat) : Hash8 :=
  let st := (sha256K.zip (schedule block)).foldl sha256Round H
  ⟨add32 H.a st.a, add32 H.b st.b, add32 H.c st.c, add32 H.d st.d,
   add32 H.e st.e, add32 H.f st.f, add32 H.g st.g, add32 H.h st.h⟩

/-- Big-endian 8-byte encoding of the message bit length. -/
def lenBytes8 (n : Nat) : List Nat :=
  [n / 72057594037927936 % 256, n / 281474976710656 % 256,
   n / 1099511627776 % 256, n / 4294967296 % 256,
   n / 16777216 % 256, n / 65536 % 256, n / 256 % 256, n % 256]

/-- SHA-256 message padding: append `0x80`, zeros, and the 64-bit bit length,
reaching a multiple of 64 bytes. -/
def sha256Pad (msg : List Nat) : List Nat :=
  msg ++ 0x80 :: List.replicate ((119 - msg.length % 64) % 64) 0 ++ lenBytes8 (8 * msg.length)

/-- Split a byte list into `n` consecutive 64-byte blocks. -/
def splitBlocks : Nat → List Nat → List (List Nat)
  | 0, _ => []
  | n + 1, l => l.take 64 :: splitBlocks n (l.drop 64)

/-- The SHA-256 digest of a byte list, as eight 32-bit words. -/
def sha256 (msg : List Nat) : Hash8 :=
  let padded := sha256Pad msg
  (splitBlocks (padded.length / 64) padded).foldl processBlock sha256H0

/-- Lowercase hex digit for a value reduced mod 16. -/
def hexChar (n : Nat) : Char :=
  if n % 16 < 10 then Char.ofNat (48 + n % 16) else Char.ofNat (87 + n % 16)

/-- The eight lowercase hex digits of a 32-bit word, most significant first. -/
def wordHex (w : Nat) : List Char :=
  [hexChar (w / 268435456), hexChar (w / 16777216), hexChar (w / 1048576),
   hexChar (w / 65536), hexChar (w / 4096), hexChar (w / 256),
   hexChar (w / 16), hexChar w]

/-- The 64-character lowercase hex encoding of a digest. -/
def digestHex (d : Hash8) : List Char :=
  wordHex d.a ++ wordHex d.b ++ wordHex d.c ++ wordHex d.d ++
  wordHex d.e ++ wordHex d.f ++ wordHex d.g ++ wordHex d.h

/-- UTF-8 encoding of one character (Python `str.encode()` is UTF-8). -/
def utf8Char (c : Char) : List Nat :=
  let n := c.toNat
  if n < 128 then [n]
  else if n < 2048 then [192 + n / 64, 128 + n % 64]
  else if n < 65536 then [224 + n / 4096, 128 + n / 64 % 64, 128 + n % 64]
  else [240 + n / 262144, 128 + n / 4096 % 64, 128 + n / 64 % 64, 128 + n % 64]

/-- UTF-8 encoding of a string, as Python `content.encode()` produces. -/
def utf8Encode (s : String) : List Nat := s.data.flatMap utf8Char

/-- `get_content_hash(content)`: `hashlib.sha256(content.encode()).hexdigest()`
(app.py lines 69-70). -/
def get_content_hash (content : String) : String :=
  String.mk (digestHex (sha256 (utf8Encode content)))

/-! ## The SQLite store

`create_tables` (app.py lines 9-33) creates three tables:

* `websites (url TEXT PRIMARY KEY, timestamp DATETIME, content_hash TEXT,
  content TEXT)` — the current snapshots;
* `urls (url TEXT PRIMARY KEY)` — the watch list.  Note this schema has **no**
  `last_checked` column, although `update_urls` (line 39-40),
  `should_fetch_content` (line 75) and `monitor_website_changes` (line 154)
  all issue SQL naming `urls.last_checked`;
* `website_archive (url, timestamp, content_hash, content)` — no constraint.

Because `CREATE TABLE IF NOT EXISTS` keeps a pre-existing table, the `urls`
table of a database file created by an older schema may carry a
`last_checked` column.  The store model therefore records, in
`urlsHasLastChecked`, whether the live `urls` table has that column; SQL
statements naming the column raise `sqlite3.OperationalError` at prepare time
when it is absent.  A `urls` row is a pair of the URL and its `last_checked`
value; a `websites` / `website_archive` row is a `SnapRow`.  Timestamps are
integers (Python `datetime` values, in minutes so that the comparison with
`timedelta(minutes=w)` is the integer comparison); `datetime.now()` becomes an
explicit `now` argument. -/

/-- A row of the `websites` or `website_archive` table: columns in schema
order `(url, timestamp, content_hash, content)`. -/
structure SnapRow where
  url : String
  timestamp : Int
  contentHash : String
  content : String
deriving DecidableEq, Repr

/-- The database state: the `urls` table schema flag and the three tables,
rows in storage (insertion) order. -/
structure Store where
  urlsHasLastChecked : Bool
  urls : List (String × Int)
  websites : List SnapRow
  websiteArchive : List SnapRow
deriving DecidableEq, Repr

/-- The Python exceptions the modelled code can raise.  `assertionError` is
the `assert` on app.py line 105; it is included to express that the code
fails with `typeError` (subscripting `None` on line 103) *before* that assert
can fire. -/
inductive PyErr where
  | operationalError
  | integrityError
  | typeError
  | assertionError
deriving DecidableEq, Repr

/-- `create_tables(cursor)` on a fresh database (app.py lines 9-33): all three
tables empty, and the `urls` table created **without** a `last_checked`
column. -/
def create_tables : Store :=
  { urlsHasLastChecked := false, urls := [], websites := [], websiteArchive := [] }

/-- `update_urls(cursor, new_urls)` (app.py lines 35-43).  Per URL, inside
`try/except sqlite3.Error`:
`INSERT OR IGNORE INTO urls (url, last_checked) VALUES (?, ?)` then
`UPDATE urls SET last_checked = ? WHERE url = ?`.  When the `urls` table has
no `last_checked` column both statements raise `sqlite3.OperationalError`,
which the `except` clause catches and logs, leaving the store unchanged for
that URL.  Otherwise the insert appends the row when the URL is absent and is
ignored when present, and the update refreshes `last_checked`.  The function
itself never raises. -/
def update_urls (s : Store) (new_urls : List String) (now : Int) : Store :=
  new_urls.foldl (fun st url =>
    if st.urlsHasLastChecked then
      let st1 := if (st.urls.find? (fun r => r.1 == url)).isSome then st
                 else { st with urls := st.urls ++ [(url, now)] }
      { st1 with urls := st1.urls.map (fun r => if r.1 == url then (r.1, now) else r) }
    else st) s

/-- `remove_urls(cursor, del_urls)` (app.py lines 46-54):
`DELETE FROM urls WHERE url = ?` per URL. -/
def remove_urls (s : Store) (del_urls : List String) : Store :=
  del_urls.foldl (fun st url =>
    { st with urls := st.urls.filter (fun r => !(r.1 == url)) }) s

/-- `get_all_urls(cursor)` (app.py lines 56-58): `SELECT url FROM urls`, rows
in storage order. -/
def get_all_urls (s : Store) : List String := s.urls.map (fun r => r.1)

/-- `should_fetch_content(cursor, url, time_delta_minutes)` (app.py lines
72-91).  Reads the stored hash (`SELECT content_hash FROM websites WHERE url
= ?`), then `SELECT last_checked FROM urls WHERE url = ?` — an
`OperationalError` when the column is missing — and subscripts
`cursor.fetchone()[0]` — a `TypeError` when the URL is not watched.  Then:
no stored hash → `(True, None)`; stored hash and
`last_checked < now - timedelta(minutes=w)` → `(True, hash)`; otherwise
`(False, None)`. -/
def should_fetch_content (s : Store) (url : String) (w : Int) (now : Int) :
    Except PyErr (Bool × Option String) :=
  let hashResult := (s.websites.find? (fun r => r.url == url)).map (fun r => r.contentHash)
  if !s.urlsHasLastChecked then .error .operationalError
  else match s.urls.find? (fun r => r.1 == url) with
  | none => .error .typeError
  | some urlRow =>
    match hashResult with
    | none => .ok (true, none)
    | some oldHash =>
      if urlRow.2 < now - w then .ok (true, some oldHash)
      else .ok (false, none)

/-- `store_website_content(cursor, url, content)` (app.py lines 93-97):
`INSERT INTO websites ...` with `url` the primary key, so an existing row for
the URL raises `sqlite3.IntegrityError` (and the statement changes nothing);
otherwise the row `(url, now, sha256-hex of content, content)` is appended. -/
def store_website_content (s : Store) (url content : String) (now : Int) :
    Except PyErr Store :=
  if (s.websites.find? (fun r => r.url == url)).isSome then .error .integrityError
  else .ok { s with websites :=
    s.websites ++ [⟨url, now, get_content_hash content, content⟩] }

/-- `archive_old_website_content(cursor, url)` (app.py lines 99-109).  Reads
the `websites` row; line 103 subscripts `data[3]` **before** the
`assert data is not None` on line 105, so a missing row raises `TypeError`
(`NoneType` is not subscriptable) and the `AssertionError` is unreachable.
With a row present, the row is copied to `website_archive`, deleted from
`websites`, and its `content` column returned. -/
def archive_old_website_content (s : Store) (url : String) :
    Except PyErr (Store × String) :=
  match s.websites.find? (fun r => r.url == url) with
  | none => .error .typeError
  | some row =>
    .ok ({ s with websites := s.websites.filter (fun r => !(r.url == url)),
                  websiteArchive := s.websiteArchive ++ [row] },
         row.content)

/-- The counters `monitor_website_changes` returns (app.py line 132). -/
structure Stats where
  numErrors : Nat
  numFetches : Nat
  numChanges : Nat
  numNewPages : Nat
deriving DecidableEq, Repr

/-- `UPDATE urls SET last_checked = ? WHERE url = ?` (app.py line 154),
uncaught, so an `OperationalError` when the `urls` table has no
`last_checked` column. -/
def set_last_checked (s : Store) (url : String) (now : Int) : Except PyErr Store :=
  if s.urlsHasLastChecked then
    .ok { s with urls := s.urls.map (fun r => if r.1 == url then (r.1, now) else r) }
  else .error .operationalError

/-- The body of the `for url in urls` loop of `monitor_website_changes`
(app.py lines 134-154), threading the store and the counters.  `fetch` is the
network oracle standing for `get_website_content` (lines 60-67): that
function catches every `requests.RequestException` and returns `''`, so its
observable behaviour is a total function to strings with `""` marking
failure.  An empty result (`if not current_content`) counts an error and
skips the URL (`continue`), so `last_checked` is not updated. -/
def monitor_step (fetch : String → String) (w now : Int)
    (acc : Store × Stats) (url : String) : Except PyErr (Store × Stats) :=
  let s := acc.1
  let stats := acc.2
  match should_fetch_content s url w now with
  | .error e => .error e
  | .ok (shouldFetch, oldContentHash) =>
    if shouldFetch then
      let stats1 := { stats with numFetches := stats.numFetches + 1 }
      let currentContent := fetch url
      if currentContent = "" then
        .ok (s, { stats1 with numErrors := stats1.numErrors + 1 })
      else
        let currentContentHash := get_content_hash currentContent
        match oldContentHash with
        | none =>
          match store_website_content s url currentContent now with
          | .error e => .error e
          | .ok s1 =>
            match set_last_checked s1 url now with
            | .error e => .error e
            | .ok s2 =>
              .ok (s2, { stats1 with numNewPages := stats1.numNewPages + 1 })
        | some oldHash =>
          if oldHash ≠ currentContentHash then
            match archive_old_website_content s url with
            | .error e => .error e
            | .ok (s1, _oldContent) =>
              match store_website_content s1 url currentContent now with
              | .error e => .error e
              | .ok s2 =>
                match set_last_checked s2 url now with
                | .error e => .error e
                | .ok s3 =>
                  .ok (s3, { stats1 with numChanges := stats1.numChanges + 1 })
          else
            match set_last_checked s url now with
            | .error e => .error e
            | .ok s1 => .ok (s1, stats1)
    else
      .ok (s, stats)

/-- The `for url in urls` loop of `monitor_website_changes`: fold the loop
body over the URL list; an uncaught exception aborts the run. -/
def monitor_loop (fetch : String → String) (w now : Int) :
    List String → Store × Stats → Except PyErr (Store × Stats)
  | [], acc => .ok acc
  | url :: rest, acc =>
    match monitor_step fetch w now acc url with
    | .error e => .error e
    | .ok acc1 => monitor_loop fetch w now rest acc1

/-- `monitor_website_changes(cursor, urls, time_delta_minutes)` (app.py lines
131-156): run the loop starting from zeroed counters, returning the final
store and the counters. -/
def monitor_website_changes (fetch : String → String) (s : Store)
    (urls : List String) (w now : Int) : Except PyErr (Store × Stats) :=
  monitor_loop fetch w now urls (s, ⟨0, 0, 0, 0⟩)

/-! ## Sequences of store operations

For the uniqueness invariant on current snapshots we close the store
operations under arbitrary sequencing.  A failed SQL statement is atomic at
the statement level (and in each of these operations the failure point
precedes every write), so a failing operation leaves the store unchanged;
a run that an exception would abort is a prefix of the sequence and hence
itself covered. -/

/-- A call to one of the store-mutating operations, with its arguments. -/
inductive StoreOp where
  | store (url content : String) (now : Int)
  | archive (url : String)
  | upd (new_urls : List String) (now : Int)
  | rem (del_urls : List String)

/-- Apply one operation; on an exception the store is unchanged. -/
def applyOp (s : Store) : StoreOp → Store
  | .store url content now =>
    match store_website_content s url content now with
    | .ok s1 => s1
    | .error _ => s
  | .archive url =>
    match archive_old_website_content s url with
    | .ok (s1, _) => s1
    | .error _ => s
  | .upd new_urls now => update_urls s new_urls now
  | .rem del_urls => remove_urls s del_urls

/-- Apply a sequence of store operations in order. -/
def applyOps (s : Store) (ops : List StoreOp) : Store := ops.foldl applyOp s

/-- The `websites` table (the `url` column being its primary key) holds at
most one row per URL. -/
def atMostOneSnapshotPerUrl (s : Store) : Prop :=
  s.websites.Pairwise (fun a b => a.url ≠ b.url)

/-! ## Helper lemmas -/

theorem update_urls_websites (new_urls : List String) :
    ∀ (s : Store) (now : Int), (update_urls s new_urls now).websites = s.websites := by
  induction new_urls with
  | nil => intro s now; rfl
  | cons u rest ih =>
    intro s now
    show (update_urls _ rest now).websites = s.websites
    rw [ih]
    by_cases h : s.urlsHasLastChecked
    · simp only [update_urls, List.foldl_cons, h, if_true]
      split <;> rfl
    · simp [h]

theorem remove_urls_websites (del_urls : List String) :
    ∀ s : Store, (remove_urls s del_urls).websites = s.websites := by
  induction del_urls with
  | nil => intro s; rfl
  | cons u rest ih =>
    intro s
    show (remove_urls _ rest).websites = s.websites
    rw [ih]

theorem applyOp_preserves_unique (s : Store) (op : StoreOp)
    (h : atMostOneSnapshotPerUrl s) : atMostOneSnapshotPerUrl (applyOp s op) := by
  cases op with
  | store url content now =>
    unfold applyOp store_website_content
    by_cases hfind : (s.websites.find? (fun r => r.url == url)).isSome
    · simp [hfind]; exact h
    · simp [hfind]
      unfold atMostOneSnapshotPerUrl at h ⊢
      simp only [List.pairwise_append]
      refine ⟨h, List.pairwise_singleton _ _, ?_⟩
      intro a ha b hb
      simp only [List.mem_singleton] at hb
      subst hb
      rw [Option.not_isSome_iff_eq_none, List.find?_eq_none] at hfind
      have := hfind a ha
      simpa using this
  | archive url =>
    unfold applyOp archive_old_website_content
    cases hfind : s.websites.find? (fun r => r.url == url) with
    | none => simp only [hfind]; exact h
    | some row =>
      simp only [hfind]
      unfold atMostOneSnapshotPerUrl at h ⊢
      exact h.filter _
  | upd new_urls now =>
    unfold atMostOneSnapshotPerUrl at h ⊢
    unfold applyOp
    rw [update_urls_websites]
    exact h
  | rem del_urls =>
    unfold atMostOneSnapshotPerUrl at h ⊢
    unfold applyOp
    rw [remove_urls_websites]
    exact h

theorem applyOps_preserves_unique (ops : List StoreOp) :
    ∀ s : Store, atMostOneSnapshotPerUrl s → atMostOneSnapshotPerUrl (applyOps s ops) := by
  induction ops with
  | nil => intro s h; exact h
  | cons op rest ih =>
    intro s h
    exact ih (applyOp s op) (applyOp_preserves_unique s op h)


theorem should_fetch_of_snapshot (s : Store) (u h : String) (lc w now : Int)
    (hcol : s.urlsHasLastChecked = true)
    (hurl : s.urls.find? (fun r => r.1 == u) = some (u, lc))
    (hsnap : (s.websites.find? (fun r => r.url == u)).map (fun r => r.contentHash) = some h) :
    should_fetch_content s u w now =
      if lc < now - w then .ok (true, some h) else .ok (false, none) := by
  simp only [should_fetch_content, hcol, hurl, hsnap, Bool.not_true, Bool.false_eq_true,
    if_false]

theorem should_fetch_of_no_snapshot (s : Store) (u : String) (lc w now : Int)
    (hcol : s.urlsHasLastChecked = true)
    (hurl : s.urls.find? (fun r => r.1 == u) = some (u, lc))
    (hsnap : s.websites.find? (fun r => r.url == u) = none) :
    should_fetch_content s u w now = .ok (true, none) := by
  simp only [should_fetch_content, hcol, hurl, hsnap, Bool.not_true,
    Bool.false_eq_true, if_false]
  rfl

/-! ## Claims -/

/-- Claim C1: the claim states that `update_urls` on a store freshly
initialized by `create_tables` inserts each URL (refreshing timestamps of
duplicates) so that `get_all_urls` then lists each added URL exactly once.
On the code this fails: `create_tables` creates `urls (url TEXT PRIMARY
KEY)` with no `last_checked` column, while `update_urls` executes
`INSERT OR IGNORE INTO urls (url, last_checked) VALUES (?, ?)`, which raises
`sqlite3.OperationalError`, caught by the per-URL `except sqlite3.Error`
handler and merely logged.  Consequently nothing is inserted and
`get_all_urls` returns the empty list — the URL is listed zero times, not
once.  This contradicts the repository's own test `test_update_urls`, which
performs exactly this sequence and expects to find the row. -/
theorem c1_update_urls_on_fresh_store_inserts_nothing :
    update_urls create_tables ["http://example.com", "http://example.com"] 0 = create_tables ∧
    get_all_urls (update_urls create_tables ["http://example.com"] 0) = [] := by
  constructor <;> rfl

/-- Claim C2 counterexample: at the boundary `now - last_checked = W` the
claim demands a fetch (`(true, stored hash)`), but `should_fetch_content`
compares with a strict `<` (`datetime_last_checked < now - timedelta(W)`,
app.py line 85) and returns `(false, none)`.  Concretely: `last_checked =
0`, `now = 60`, `W = 60`, a snapshot with hash `"h1"` stored. -/
theorem c2_boundary_counterexample :
    (60 : Int) - 0 = 60 ∧
    should_fetch_content ⟨true, [("u", 0)], [⟨"u", 0, "h1", "b"⟩], []⟩ "u" 60 60 =
      .ok (false, none) :=
  ⟨by decide, rfl⟩

/-- Claim C2 (amended): for a watched URL with a `CurrentSnapshot` (in a
`urls` table that has the `last_checked` column), `should_fetch_content`
with window `w` returns `(true, stored hash)` exactly when
`now - last_checked > w` *strictly*, and `(false, none)` otherwise; in
particular the boundary `now - last_checked = w` does **not** trigger a
fetch. -/
theorem c2_fetch_iff_strictly_stale (s : Store) (u h : String) (lc w now : Int)
    (hcol : s.urlsHasLastChecked = true)
    (hurl : s.urls.find? (fun r => r.1 == u) = some (u, lc))
    (hsnap : (s.websites.find? (fun r => r.url == u)).map (fun r => r.contentHash) = some h) :
    should_fetch_content s u w now =
      if now - lc > w then .ok (true, some h) else .ok (false, none) := by
  rw [should_fetch_of_snapshot s u h lc w now hcol hurl hsnap]
  by_cases hc : lc < now - w
  · rw [if_pos hc, if_pos (by omega)]
  · rw [if_neg hc, if_neg (by omega)]

/-- Witness for C2 (amended): a concrete stale snapshot (`last_checked = 0`,
`now = 100`, `w = 10`) evaluated through the theorem. -/
theorem c2_fetch_iff_strictly_stale_witness :
    should_fetch_content ⟨true, [("u", 0)], [⟨"u", 0, "h1", "b"⟩], []⟩ "u" 10 100 =
      if (100 : Int) - 0 > 10 then .ok (true, some "h1") else .ok (false, none) :=
  c2_fetch_iff_strictly_stale _ "u" "h1" 0 10 100 rfl rfl rfl

/-- Claim C3: the claim (and spec §4.1/§7) says archiving a URL with no
`CurrentSnapshot` fails with a precondition (assertion) error.  The code
does halt, but with a `TypeError`, not an `AssertionError`: line 103
(`website_content = data[3]`) subscripts the `None` returned by
`fetchone()` *before* the `assert data is not None` on line 105 can run.
Evaluated on an empty fresh store and on a store with a watched URL but no
snapshot, both give `TypeError`. -/
theorem c3_archive_missing_snapshot_raises_type_error :
    archive_old_website_content create_tables "http://example.com" = .error .typeError ∧
    archive_old_website_content ⟨true, [("http://example.com", 5)], [], []⟩
      "http://example.com" = .error .typeError ∧
    PyErr.typeError ≠ PyErr.assertionError :=
  ⟨rfl, rfl, by decide⟩

/-- Claim C4: on a snapshot-free store, `store_website_content` then
`archive_old_website_content` appends exactly one `website_archive` row with
the same url, timestamp, content hash and content as the stored
`CurrentSnapshot`, deletes the `websites` row (leaving none for that URL),
leaves the watch list untouched, and returns the archived content. -/
theorem c4_store_then_archive_roundtrip (s : Store) (u c : String) (t : Int)
    (hfree : s.websites = []) :
    ∃ s1 s2,
      store_website_content s u c t = .ok s1 ∧
      archive_old_website_content s1 u = .ok (s2, c) ∧
      s1.websites = [⟨u, t, get_content_hash c, c⟩] ∧
      s2.websiteArchive = s.websiteArchive ++ [⟨u, t, get_content_hash c, c⟩] ∧
      s2.websites = [] ∧ s2.urls = s.urls := by
  refine ⟨{ s with websites := [⟨u, t, get_content_hash c, c⟩] },
          { s with websites := [],
                   websiteArchive := s.websiteArchive ++ [⟨u, t, get_content_hash c, c⟩] },
          ?_, ?_, rfl, rfl, rfl, rfl⟩
  · simp [store_website_content, hfree]
  · simp [archive_old_website_content, List.find?]

/-- Witness for C4: the roundtrip on a concrete empty store. -/
theorem c4_store_then_archive_roundtrip_witness :
    ∃ s1 s2,
      store_website_content create_tables "u" "body" 7 = .ok s1 ∧
      archive_old_website_content s1 "u" = .ok (s2, "body") ∧
      s1.websites = [⟨"u", 7, get_content_hash "body", "body"⟩] ∧
      s2.websiteArchive = create_tables.websiteArchive ++
        [⟨"u", 7, get_content_hash "body", "body"⟩] ∧
      s2.websites = [] ∧ s2.urls = create_tables.urls :=
  c4_store_then_archive_roundtrip create_tables "u" "body" 7 rfl

/-- Claim C7: for a watched URL (present in a `urls` table that has the
`last_checked` column) with no `CurrentSnapshot`, `should_fetch_content`
returns `(true, none)` for every staleness window `w` and every current
time. -/
theorem c7_no_snapshot_always_fetches (s : Store) (u : String) (lc w now : Int)
    (hcol : s.urlsHasLastChecked = true)
    (hurl : s.urls.find? (fun r => r.1 == u) = some (u, lc))
    (hsnap : s.websites.find? (fun r => r.url == u) = none) :
    should_fetch_content s u w now = .ok (true, none) :=
  should_fetch_of_no_snapshot s u lc w now hcol hurl hsnap

/-- Witness for C7: a concrete watched URL with no snapshot, with a huge
staleness window. -/
theorem c7_no_snapshot_always_fetches_witness :
    should_fetch_content ⟨true, [("u", 50)], [], []⟩ "u" 1000000 51 = .ok (true, none) :=
  c7_no_snapshot_always_fetches _ "u" 50 1000000 51 rfl rfl rfl

/-- Claim C8: in every state reachable from a store initialized by
`create_tables` by any sequence of `store_website_content`,
`archive_old_website_content`, `update_urls` and `remove_urls` calls, the
`websites` table holds at most one row per URL (its `url` column is the
primary key: a conflicting insert raises `IntegrityError` and changes
nothing, archiving deletes, and the URL operations never touch
`websites`). -/
theorem c8_at_most_one_current_snapshot_per_url (ops : List StoreOp) :
    atMostOneSnapshotPerUrl (applyOps create_tables ops) :=
  applyOps_preserves_unique ops create_tables List.Pairwise.nil

theorem store_website_content_websites (s s1 : Store) (u c : String) (t : Int)
    (h : store_website_content s u c t = .ok s1) :
    s1.websites = s.websites ++ [⟨u, t, get_content_hash c, c⟩] := by
  unfold store_website_content at h
  split at h
  · cases h
  · cases h; rfl

theorem archive_old_website_content_websites (s s1 : Store) (u x : String)
    (h : archive_old_website_content s u = .ok (s1, x)) :
    s1.websites = s.websites.filter (fun r => !(r.url == u)) := by
  unfold archive_old_website_content at h
  split at h
  · cases h
  · cases h; rfl

theorem set_last_checked_websites (s s1 : Store) (u : String) (t : Int)
    (h : set_last_checked s u t = .ok s1) : s1.websites = s.websites := by
  unfold set_last_checked at h
  split at h
  · cases h; rfl
  · cases h

/-- Claim C6: for a watched URL whose fetch is triggered (for either reason:
no snapshot, or staleness) but whose fetch fails (`get_website_content`
returns `''`), `monitor_website_changes` increments the error counter (and
the fetches-attempted counter) and returns the store completely untouched:
snapshot, archive and `last_checked` all unchanged. -/
theorem c6_fetch_failure_leaves_state_untouched (fetch : String → String)
    (s : Store) (u : String) (oh : Option String) (w now : Int)
    (hsf : should_fetch_content s u w now = .ok (true, oh))
    (hfail : fetch u = "") :
    monitor_website_changes fetch s [u] w now = .ok (s, ⟨1, 1, 0, 0⟩) := by
  unfold monitor_website_changes monitor_loop monitor_step
  simp only [hsf, hfail, if_pos rfl, if_true]
  rfl

/-- Witness for C6: a concrete store with a stale snapshot and a fetch
oracle that always fails. -/
theorem c6_fetch_failure_leaves_state_untouched_witness :
    monitor_website_changes (fun _ => "") ⟨true, [("u", 0)], [⟨"u", 0, "h1", "b"⟩], []⟩
      ["u"] 10 100 = .ok (⟨true, [("u", 0)], [⟨"u", 0, "h1", "b"⟩], []⟩, ⟨1, 1, 0, 0⟩) :=
  c6_fetch_failure_leaves_state_untouched (fun _ => "") _ "u" (some "h1") 10 100 rfl rfl

/-- Claim C5: for a watched URL with a stale `CurrentSnapshot` whose fetch
succeeds with content hashing to the stored hash, `monitor_website_changes`
mutates neither `websites` nor `website_archive`, increments only the
fetches-attempted counter, and sets the URL's `last_checked` to `now`. -/
theorem c5_unchanged_content_only_touches_last_checked (fetch : String → String)
    (s : Store) (u c c0 : String) (t0 lc w now : Int)
    (hcol : s.urlsHasLastChecked = true)
    (hurl : s.urls.find? (fun r => r.1 == u) = some (u, lc))
    (hsnap : s.websites.find? (fun r => r.url == u) = some ⟨u, t0, get_content_hash c, c0⟩)
    (hstale : lc < now - w)
    (hfetch : fetch u = c) (hne : c ≠ "") :
    monitor_website_changes fetch s [u] w now =
      .ok ({ s with urls := s.urls.map (fun r => if r.1 == u then (r.1, now) else r) },
           ⟨0, 1, 0, 0⟩) := by
  have hsf : should_fetch_content s u w now = .ok (true, some (get_content_hash c)) := by
    rw [should_fetch_of_snapshot s u (get_content_hash c) lc w now hcol hurl
      (by rw [hsnap]; rfl), if_pos hstale]
  unfold monitor_website_changes monitor_loop monitor_step
  simp only [hsf, hfetch, if_neg hne, ne_eq, not_true_eq_false, if_false,
    set_last_checked, hcol, if_true]
  rfl

/-- Witness for C5: concrete store whose stored hash is the hash of the
re-fetched content `"x"`. -/
theorem c5_unchanged_content_only_touches_last_checked_witness :
    monitor_website_changes (fun _ => "x")
      ⟨true, [("u", 0)], [⟨"u", 0, get_content_hash "x", "x"⟩], []⟩ ["u"] 10 100 =
      .ok (⟨true, [("u", 0)].map (fun r => if r.1 == "u" then (r.1, (100 : Int)) else r),
            [⟨"u", 0, get_content_hash "x", "x"⟩], []⟩, ⟨0, 1, 0, 0⟩) :=
  c5_unchanged_content_only_touches_last_checked (fun _ => "x") _ "u" "x" "x" 0 0 10 100
    rfl rfl rfl (by decide) rfl (by decide)

theorem monitor_step_empty_never_stored (fetch : String → String) (w now : Int)
    (acc res : Store × Stats) (u : String)
    (h : monitor_step fetch w now acc u = .ok res) :
    ∀ r ∈ res.1.websites, r.content = "" → r ∈ acc.1.websites := by
  intro r hr hc
  unfold monitor_step at h
  dsimp only at h
  cases hsf : should_fetch_content acc.1 u w now with
  | error e => rw [hsf] at h; cases h
  | ok p =>
    rw [hsf] at h
    obtain ⟨sf, oh⟩ := p
    cases sf with
    | false => simp only [Bool.false_eq_true, if_false] at h; cases h; exact hr
    | true =>
      simp only [if_true] at h
      by_cases hfe : fetch u = ""
      · rw [if_pos hfe] at h; cases h; exact hr
      · rw [if_neg hfe] at h
        cases oh with
        | none =>
          dsimp only at h
          cases hst : store_website_content acc.1 u (fetch u) now with
          | error e => rw [hst] at h; cases h
          | ok s1 =>
            rw [hst] at h
            dsimp only at h
            cases hsl : set_last_checked s1 u now with
            | error e => rw [hsl] at h; cases h
            | ok s2 =>
              rw [hsl] at h; cases h
              rw [set_last_checked_websites s1 s2 u now hsl,
                store_website_content_websites acc.1 s1 u (fetch u) now hst] at hr
              rcases List.mem_append.mp hr with h3 | h3
              · exact h3
              · rw [List.mem_singleton] at h3
                subst h3
                exact absurd hc hfe
        | some oldh =>
          dsimp only at h
          by_cases hne : oldh ≠ get_content_hash (fetch u)
          · rw [if_pos hne] at h
            cases har : archive_old_website_content acc.1 u with
            | error e => rw [har] at h; cases h
            | ok p1 =>
              obtain ⟨s1, oc⟩ := p1
              rw [har] at h
              dsimp only at h
              cases hst : store_website_content s1 u (fetch u) now with
              | error e => rw [hst] at h; cases h
              | ok s2 =>
                rw [hst] at h
                dsimp only at h
                cases hsl : set_last_checked s2 u now with
                | error e => rw [hsl] at h; cases h
                | ok s3 =>
                  rw [hsl] at h; cases h
                  rw [set_last_checked_websites s2 s3 u now hsl,
                    store_website_content_websites s1 s2 u (fetch u) now hst] at hr
                  rcases List.mem_append.mp hr with h3 | h3
                  · rw [archive_old_website_content_websites acc.1 s1 u oc har] at h3
                    exact List.mem_of_mem_filter h3
                  · rw [List.mem_singleton] at h3
                    subst h3
                    exact absurd hc hfe
          · rw [if_neg hne] at h
            cases hsl : set_last_checked acc.1 u now with
            | error e => rw [hsl] at h; cases h
            | ok s1 =>
              rw [hsl] at h; cases h
              rw [set_last_checked_websites acc.1 s1 u now hsl] at hr
              exact hr

theorem monitor_loop_empty_never_stored (fetch : String → String) (w now : Int) :
    ∀ (urls : List String) (acc res : Store × Stats),
      monitor_loop fetch w now urls acc = .ok res →
      ∀ r ∈ res.1.websites, r.content = "" → r ∈ acc.1.websites := by
  intro urls
  induction urls with
  | nil =>
    intro acc res h r hr _
    unfold monitor_loop at h
    cases h
    exact hr
  | cons u rest ih =>
    intro acc res h r hr hc
    unfold monitor_loop at h
    cases hstep : monitor_step fetch w now acc u with
    | error e => rw [hstep] at h; cases h
    | ok acc1 =>
      rw [hstep] at h
      exact monitor_step_empty_never_stored fetch w now acc acc1 u hstep r
        (ih acc1 res h r hr hc) hc

/-- Claim C10: an empty fetch result — whether a transport/HTTP failure or a
genuinely empty body, `get_website_content` returns `''` in both cases and
line 140 (`if not current_content`) cannot tell them apart — is counted as a
fetch error, mutates nothing for that URL, and does not update its
`last_checked`; consequently no run of `monitor_website_changes` can ever
add a `CurrentSnapshot` row with empty content. -/
theorem c10_empty_content_is_error_and_never_stored (fetch : String → String)
    (s : Store) (u : String) (oh : Option String) (w now : Int)
    (hsf : should_fetch_content s u w now = .ok (true, oh))
    (hempty : fetch u = "") :
    monitor_website_changes fetch s [u] w now = .ok (s, ⟨1, 1, 0, 0⟩) ∧
    ∀ (urls : List String) (s2 : Store) (stats : Stats),
      monitor_website_changes fetch s urls w now = .ok (s2, stats) →
      ∀ r ∈ s2.websites, r.content = "" → r ∈ s.websites := by
  constructor
  · unfold monitor_website_changes monitor_loop monitor_step
    simp only [hsf, hempty, if_pos rfl, if_true]
    rfl
  · intro urls s2 stats h r hr hc
    exact monitor_loop_empty_never_stored fetch w now urls (s, ⟨0, 0, 0, 0⟩)
      (s2, stats) h r hr hc

/-- Witness for C10: a watched URL with no snapshot and an always-empty
fetch oracle; the error is counted and the store is untouched. -/
theorem c10_empty_content_is_error_and_never_stored_witness :
    monitor_website_changes (fun _ => "") ⟨true, [("v", 3)], [], []⟩ ["v"] 60 100 =
      .ok (⟨true, [("v", 3)], [], []⟩, ⟨1, 1, 0, 0⟩) :=
  (c10_empty_content_is_error_and_never_stored (fun _ => "")
    ⟨true, [("v", 3)], [], []⟩ "v" none 60 100 rfl rfl).1

/-! ## Properties of the hex digest -/

theorem hexChar_mem_hexDigits (n : Nat) : hexChar n ∈ ("0123456789abcdef".data) := by
  unfold hexChar
  have h16 : n % 16 < 16 := Nat.mod_lt _ (by norm_num)
  generalize hm : n % 16 = m
  rw [hm] at h16
  interval_cases m <;> decide

theorem get_content_hash_length (s : String) : (get_content_hash s).length = 64 := by
  unfold get_content_hash
  simp [String.length, digestHex, wordHex]

theorem get_content_hash_chars (s : String) :
    ∀ ch ∈ (get_content_hash s).data, ch ∈ ("0123456789abcdef".data) := by
  have hw : ∀ (w : Nat) (c : Char), c ∈ wordHex w → c ∈ ("0123456789abcdef".data) := by
    intro w c hcw
    simp only [wordHex, List.mem_cons, List.not_mem_nil, or_false] at hcw
    rcases hcw with h | h | h | h | h | h | h | h <;>
      (subst h; exact hexChar_mem_hexDigits _)
  intro chr hchr
  have hchr2 : chr ∈ digestHex (sha256 (utf8Encode s)) := hchr
  simp only [digestHex, List.mem_append] at hchr2
  rcases hchr2 with ((((((h | h) | h) | h) | h) | h) | h) | h <;> exact hw _ _ h

/-! ## Collisions exist: the digest range is finite -/

/-- All eight digest words fit in 32 bits. -/
def Bounded32 (x : Hash8) : Prop :=
  x.a < 4294967296 ∧ x.b < 4294967296 ∧ x.c < 4294967296 ∧ x.d < 4294967296 ∧
  x.e < 4294967296 ∧ x.f < 4294967296 ∧ x.g < 4294967296 ∧ x.h < 4294967296

theorem add32_lt (a b : Nat) : add32 a b < 4294967296 :=
  Nat.mod_lt _ (by norm_num)

theorem processBlock_bounded (H : Hash8) (b : List Nat) :
    Bounded32 (processBlock H b) :=
  ⟨add32_lt _ _, add32_lt _ _, add32_lt _ _, add32_lt _ _,
   add32_lt _ _, add32_lt _ _, add32_lt _ _, add32_lt _ _⟩

theorem foldl_processBlock_bounded (bs : List (List Nat)) :
    ∀ H : Hash8, Bounded32 H → Bounded32 (bs.foldl processBlock H) := by
  induction bs with
  | nil => intro H hH; exact hH
  | cons b rest ih =>
    intro H _
    rw [List.foldl_cons]
    exact ih (processBlock H b) (processBlock_bounded H b)

theorem sha256_bounded (msg : List Nat) : Bounded32 (sha256 msg) :=
  foldl_processBlock_bounded _ sha256H0 (by unfold Bounded32 sha256H0; norm_num)

/-- The digest read as a single natural number, base `2^32`. -/
def encodeHash8 (x : Hash8) : Nat :=
  x.a + 4294967296 * (x.b + 4294967296 * (x.c + 4294967296 * (x.d + 4294967296 *
    (x.e + 4294967296 * (x.f + 4294967296 * (x.g + 4294967296 * x.h))))))

theorem encodeHash8_inj (x y : Hash8) (hx : Bounded32 x) (hy : Bounded32 y)
    (h : encodeHash8 x = encodeHash8 y) : x = y := by
  cases x
  cases y
  unfold encodeHash8 Bounded32 at *
  dsimp only at *
  simp only [Hash8.mk.injEq]
  omega

theorem encodeHash8_lt (x : Hash8) (hx : Bounded32 x) :
    encodeHash8 x < 4294967296 ^ 8 := by
  have hpow : (4294967296 : Nat) ^ 8 =
      115792089237316195423570985008687907853269984665640564039457584007913129639936 := by
    norm_num
  rw [hpow]
  obtain ⟨h1, h2, h3, h4, h5, h6, h7, h8⟩ := hx
  unfold encodeHash8
  omega

/-- The string of `n` letters `a`: an infinite family of pairwise distinct
inputs for the pigeonhole argument. -/
def repChar (n : Nat) : String := String.mk (List.replicate n 'a')

theorem repChar_injective (a b : Nat) (h : repChar a = repChar b) : a = b := by
  have h2 := congrArg (fun s => s.data.length) h
  simpa [repChar] using h2

/-- The digest of the `n`-th probe input, as an element of a finite type. -/
def hashFin (n : Nat) : Fin (4294967296 ^ 8) :=
  ⟨encodeHash8 (sha256 (utf8Encode (repChar n))),
   encodeHash8_lt _ (sha256_bounded _)⟩

/-- Claim C9 counterexample: `hash(x) != hash(y) for distinct byte content`
is false as stated.  `get_content_hash` maps the infinitely many pairwise
distinct strings `"a" * n` into the finite set of 64-hex-character digests
(at most `2^256` values), so by pigeonhole two distinct inputs share a hash.
No explicit SHA-256 collision is known, so the colliding pair is obtained
non-constructively. -/
theorem c9_collision_exists :
    ∃ x y : String, x ≠ y ∧ get_content_hash x = get_content_hash y := by
  obtain ⟨a, b, hab, heq⟩ := Finite.exists_ne_map_eq_of_infinite hashFin
  refine ⟨repChar a, repChar b, fun hxy => hab (repChar_injective a b hxy), ?_⟩
  have henc : encodeHash8 (sha256 (utf8Encode (repChar a))) =
      encodeHash8 (sha256 (utf8Encode (repChar b))) := congrArg Fin.val heq
  have hdig : sha256 (utf8Encode (repChar a)) = sha256 (utf8Encode (repChar b)) :=
    encodeHash8_inj _ _ (sha256_bounded _) (sha256_bounded _) henc
  unfold get_content_hash
  rw [hdig]

/-- Claim C9 (amended): `get_content_hash` computes the hex-encoded SHA-256
digest of the content's UTF-8 bytes; it is deterministic (`hash(x) ==
hash(x)`, and equal inputs give equal hashes), every digest is exactly 64
lowercase hex characters, and it agrees with the published FIPS 180-4 test
vectors for `"abc"` and `""`.  Distinct inputs are *not* guaranteed distinct
hashes in principle (collisions exist by pigeonhole), only collision-free in
practice. -/
theorem c9_hash_deterministic_hex_sha256 :
    (∀ x y : String, x = y → get_content_hash x = get_content_hash y) ∧
    (∀ x : String, (get_content_hash x).length = 64 ∧
      ∀ ch ∈ (get_content_hash x).data, ch ∈ ("0123456789abcdef".data)) ∧
    get_content_hash "abc" =
      "ba7816bf8f01cfea414140de5dae2223b00361a396177a9cb410ff61f20015ad" ∧
    get_content_hash "" =
      "e3b0c44298fc1c149afbf4c8996fb92427ae41e4649b934ca495991b7852b855" :=
  ⟨fun _ _ h => h ▸ rfl,
   fun x => ⟨get_content_hash_length x, get_content_hash_chars x⟩,
   by rfl, by rfl⟩

/-- Witness for C9 (amended): determinism applied at the concrete input
`"hello"`. -/
theorem c9_hash_deterministic_hex_sha256_witness :
    get_content_hash "hello" = get_content_hash "hello" :=
  c9_hash_deterministic_hex_sha256.1 "hello" "hello" rfl
